import Mathlib

/-!
Verification of the jiffyng-marketplace client-side order/product logic.

Shallow embedding of the two dashboard pages:
* `src/pages/CustomerDashboard.tsx` — order fetch, status partition,
  realtime subscription, access gating (`checkCustomerAndLoadOrders`,
  `loadOrders`, the `useEffect` channel setup).
* `src/pages/VendorDashboard.tsx` — product fetch (`loadProducts`) and the
  create/update/delete handlers (`handleSubmit`, `handleDelete`).

External platform effects (the backend fetch result, session lookup, role
lookup, upload result, mutation result) are passed in explicitly as
`Option`/`Except` values; `throw` is modelled as `Except.error` and the
surrounding `try`/`catch`/`finally` as an explicit match on the attempt.
Timestamps (`created_at`, ISO-8601 strings whose lexicographic order is
chronological order) are modelled as `Nat`.
-/

/-- Order status enumeration, from the `status` field of the `Order`
interface in CustomerDashboard.tsx:
`"pending" | "accepted" | "in_transit" | "delivered" | "cancelled"`. -/
inductive OrderStatus where
  | pending
  | accepted
  | in_transit
  | delivered
  | cancelled
deriving DecidableEq, Repr

/-- The `Order` interface of CustomerDashboard.tsx. Money amounts are
modelled as `Nat`, the `created_at` timestamp as `Nat`. -/
structure Order where
  id : String
  product_name : String
  product_price : Nat
  quantity : Nat
  total_amount : Nat
  delivery_address : String
  customer_phone : String
  status : OrderStatus
  created_at : Nat
  rider_id : Option String
deriving DecidableEq, Repr

/-- An authenticated session, as returned by `supabase.auth.getSession()`;
only the user id is relevant to the embedded logic. -/
structure Session where
  userId : String
deriving DecidableEq, Repr

/-- A user-visible transient notification (the `toast` calls). -/
inductive Toast where
  | error (msg : String)
  | success (msg : String)
deriving DecidableEq, Repr

/-- A `navigate(...)` call: `"/auth"` (sign-in) or `"/"` (home). -/
inductive Nav where
  | toAuth
  | toHome
deriving DecidableEq, Repr

/-- The test `['pending', 'accepted', 'in_transit'].includes(order.status)`
from the `active` filter in `loadOrders`. -/
def isActiveStatus (s : OrderStatus) : Bool :=
  [OrderStatus.pending, OrderStatus.accepted, OrderStatus.in_transit].contains s

/-- The test `['delivered', 'cancelled'].includes(order.status)` from the
`history` filter in `loadOrders`. -/
def isHistoryStatus (s : OrderStatus) : Bool :=
  [OrderStatus.delivered, OrderStatus.cancelled].contains s

/-- The two `ordersData.filter` calls of `loadOrders` (lines 93-99 of
CustomerDashboard.tsx): split the fetched list into `(active, history)`. -/
def partitionOrders (ordersData : List Order) : List Order × List Order :=
  (ordersData.filter (fun order => isActiveStatus order.status),
   ordersData.filter (fun order => isHistoryStatus order.status))

/-- The component state touched by `loadOrders`: the two `useState` lists
and the `loading` flag. -/
structure DashState where
  activeOrders : List Order
  orderHistory : List Order
  loading : Bool
deriving DecidableEq, Repr

/-- Everything observable about one `loadOrders` call: the state after the
call, the toasts raised, whether the backend fetch was issued, and any
navigation performed (`loadOrders` never navigates). -/
structure LoadOutcome where
  state : DashState
  toasts : List Toast
  fetched : Bool
  nav : Option Nav
deriving DecidableEq, Repr

/-- `loadOrders` of CustomerDashboard.tsx. Inputs: the session lookup
result, the backend fetch result (`Except.error` models the
`if (error) throw error` path), and the prior component state. The
`try` block is the `attempt` value; the `catch` block is the
`Except.error` branch of the outer match; the `finally` block is the
`loading := false` update applied on every path. -/
def loadOrders (session : Option Session) (fetch : Except String (List Order))
    (st : DashState) : LoadOutcome :=
  let attempt : Except String (DashState × Bool) :=
    match session with
    | none => Except.ok (st, false)
    | some _ =>
      match fetch with
      | Except.error e => Except.error e
      | Except.ok ordersData =>
        let parts := partitionOrders ordersData
        Except.ok ({ st with activeOrders := parts.1, orderHistory := parts.2 }, true)
  match attempt with
  | Except.ok (st2, didFetch) =>
    { state := { st2 with loading := false }, toasts := [], fetched := didFetch, nav := none }
  | Except.error _ =>
    { state := { st with loading := false },
      toasts := [Toast.error "Failed to load orders"], fetched := true, nav := none }

/-- Observable outcome of `checkCustomerAndLoadOrders`: toasts, navigation,
and whether `loadOrders()` was invoked. -/
structure InitOutcome where
  toasts : List Toast
  nav : Option Nav
  loadTriggered : Bool
deriving DecidableEq, Repr

/-- `checkCustomerAndLoadOrders` of CustomerDashboard.tsx (lines 55-76).
`roleData` is the result of the `user_roles` lookup projected to its
`role` column (`roleData?.role` is `none` when the lookup returned no
row). -/
def checkCustomerAndLoadOrders (session : Option Session)
    (roleData : Option String) : InitOutcome :=
  match session with
  | none => { toasts := [], nav := some Nav.toAuth, loadTriggered := false }
  | some _ =>
    if roleData ≠ some "customer" then
      { toasts := [Toast.error "Access denied. Customer account required."],
        nav := some Nav.toHome, loadTriggered := false }
    else
      { toasts := [], nav := none, loadTriggered := true }

/-- The filter object passed to `.on('postgres_changes', ...)` in the
`useEffect` of CustomerDashboard.tsx (lines 36-42):
`{ event: 'UPDATE', schema: 'public', table: 'orders' }`. -/
structure PgChangeFilter where
  event : String
  schema : String
  table : String
deriving DecidableEq, Repr

/-- The filter registered for the `customer-orders-changes` channel. -/
def customerOrdersFilter : PgChangeFilter :=
  { event := "UPDATE", schema := "public", table := "orders" }

/-- One row-level change signalled by the external change feed. -/
structure PgChange where
  event : String
  schema : String
  table : String
deriving DecidableEq, Repr

/-- Realtime dispatch semantics of the platform: a registered handler
receives a change iff the filter matches it (a filter event of `"*"`
matches every event kind). -/
def filterMatches (f : PgChangeFilter) (c : PgChange) : Bool :=
  (f.event == "*" || f.event == c.event) && f.schema == c.schema && f.table == c.table

/-- What the registered callback does with a delivered payload. -/
inductive RefreshAction where
  | fullReload
deriving DecidableEq, Repr

/-- The callback registered in the `useEffect` (lines 43-46): logs the
payload and calls `loadOrders()` — a full reload for every payload,
never a targeted patch. -/
def onOrdersChange (_payload : PgChange) : RefreshAction :=
  RefreshAction.fullReload

/-- Whether a given external change makes the component re-fetch: the
change must pass the registered filter, and then the callback runs. -/
def ordersChangeTriggersReload (c : PgChange) : Bool :=
  filterMatches customerOrdersFilter c

/-- One `.eq(column, value)`-filtered, ordered select, as issued through
the generated client: table name, equality filters applied, and the
`.order(column, { ascending })` clause. -/
structure SbQuery where
  table : String
  eqFilters : List (String × String)
  orderBy : String
  ascending : Bool
deriving DecidableEq, Repr

/-- The order fetch issued inside `loadOrders` (lines 84-88 of
CustomerDashboard.tsx): orders of the sessioned customer, newest
first. -/
def loadOrdersQuery (userId : String) : SbQuery :=
  { table := "orders", eqFilters := [("customer_id", userId)],
    orderBy := "created_at", ascending := false }

/-- The `Product` interface of VendorDashboard.tsx; `price` is modelled as
`Nat`, `created_at` as `Nat`. -/
structure Product where
  id : String
  name : String
  description : Option String
  price : Nat
  image_url : Option String
  stock : Nat
  category : Option String
  created_at : Nat
deriving DecidableEq, Repr

/-- The `formData` record of VendorDashboard.tsx (raw form strings). -/
structure FormData where
  name : String
  description : String
  price : String
  stock : String
  category : String
deriving DecidableEq, Repr

/-- The blank form that `resetForm` installs. -/
def emptyForm : FormData :=
  { name := "", description := "", price := "", stock := "", category := "" }

/-- The vendor component state touched by the embedded handlers. -/
structure VendorState where
  products : List Product
  loading : Bool
  isDialogOpen : Bool
  imageFile : Option String
  imagePreview : String
  uploading : Bool
  editingProduct : Option Product
  formData : FormData
deriving DecidableEq, Repr

/-- `resetForm` of VendorDashboard.tsx (lines 161-172). -/
def resetForm (st : VendorState) : VendorState :=
  { st with formData := emptyForm, imageFile := none, imagePreview := "",
            editingProduct := none }

/-- The query issued by `loadProducts` (lines 92-95 of VendorDashboard.tsx):
`from("products").select("*").order("created_at", { ascending: false })` —
note: no `.eq` filter at all, in particular no `vendor_id` filter. -/
def loadProductsQuery : SbQuery :=
  { table := "products", eqFilters := [], orderBy := "created_at",
    ascending := false }

/-- `loadProducts` of VendorDashboard.tsx: stores whatever list the backend
returned; on error toasts and leaves the product list untouched. -/
def loadProducts (result : Except String (List Product))
    (st : VendorState) : VendorState × List Toast :=
  match result with
  | Except.ok data => ({ st with products := data, loading := false }, [])
  | Except.error _ =>
    ({ st with loading := false }, [Toast.error "Failed to load products"])

/-- The values produced by a successful `productSchema.safeParse`, with the
numeric fields already parsed (`parseFloat`/`parseInt`). The zod schema
itself is not re-traced; its outcome enters `handleSubmit` as an
`Except`. -/
structure ValidatedProductData where
  name : String
  description : Option String
  price : Nat
  stock : Nat
  category : Option String
deriving DecidableEq, Repr

/-- External results consumed by one `handleSubmit` call: the validation
outcome, the session lookup, the `uploadImage` result (public URL), and
the insert/update result. -/
structure SubmitEnv where
  validation : Except String ValidatedProductData
  session : Option Session
  uploadResult : Except String String
  mutationResult : Except String Unit
deriving Repr

/-- Observable outcome of `handleSubmit` or `handleDelete`: the state after
the call, the toasts raised, and whether `loadProducts()` was invoked. -/
structure SubmitOutcome where
  state : VendorState
  toasts : List Toast
  reload : Bool
deriving DecidableEq, Repr

/-- `toast.error(error.message || fallback)`: the fallback is used when the
thrown message is empty (falsy). -/
def errMsgOr (e fallback : String) : String :=
  if e = "" then fallback else e

/-- The `let imageUrl = editingProduct?.image_url || null; if (imageFile)
imageUrl = await uploadImage(imageFile)` step of `handleSubmit`. -/
def imageStep (env : SubmitEnv) (st : VendorState) : Except String (Option String) :=
  match st.imageFile with
  | some _ => Except.map some env.uploadResult
  | none =>
    Except.ok (match st.editingProduct with
      | some p => p.image_url
      | none => none)

/-- `handleSubmit` of VendorDashboard.tsx (lines 174-237). The `try` block
is the `attempt` value: a validation failure is an early `return` (state
kept, error toast, no reload); a missing session, upload failure or
mutation failure is a `throw`, landing in the `catch` branch which
toasts `error.message || "Failed to ... product"` and changes nothing
else; only the success path closes the dialog, resets the form and
reloads. The `finally` block clears `uploading` on every path. -/
def handleSubmit (env : SubmitEnv) (st : VendorState) : SubmitOutcome :=
  let st0 := { st with uploading := true }
  let attempt : Except String SubmitOutcome :=
    match env.validation with
    | Except.error msg =>
      Except.ok { state := st0, toasts := [Toast.error msg], reload := false }
    | Except.ok _v =>
      match env.session with
      | none => Except.error "Not authenticated"
      | some _ =>
        match imageStep env st with
        | Except.error e => Except.error e
        | Except.ok _imageUrl =>
          match env.mutationResult with
          | Except.error e => Except.error e
          | Except.ok _ =>
            let successMsg :=
              match st.editingProduct with
              | some _ => "Product updated successfully!"
              | none => "Product added successfully!"
            Except.ok { state := resetForm { st0 with isDialogOpen := false },
                        toasts := [Toast.success successMsg], reload := true }
  let caught : SubmitOutcome :=
    match attempt with
    | Except.ok out => out
    | Except.error e =>
      let fallback :=
        "Failed to " ++ (match st.editingProduct with
          | some _ => "update"
          | none => "add") ++ " product"
      { state := st0, toasts := [Toast.error (errMsgOr e fallback)], reload := false }
  { caught with state := { caught.state with uploading := false } }

/-- `handleDelete` of VendorDashboard.tsx (lines 239-248): on failure the
error is caught and toasted, nothing else changes; on success a success
toast is raised and `loadProducts()` runs. -/
def handleDelete (deleteResult : Except String Unit)
    (st : VendorState) : SubmitOutcome :=
  match deleteResult with
  | Except.error _ =>
    { state := st, toasts := [Toast.error "Failed to delete product"], reload := false }
  | Except.ok _ =>
    { state := st, toasts := [Toast.success "Product deleted successfully!"], reload := true }

/-- The initial component state of CustomerDashboard (the three `useState`
initial values: `[]`, `[]`, `true`). -/
def initialDashState : DashState :=
  { activeOrders := [], orderHistory := [], loading := true }

/-- Newest-first comparison on orders: the relation both partitioned lists
are sorted by. -/
def createdDesc (a b : Order) : Prop :=
  b.created_at ≤ a.created_at

instance : DecidableRel createdDesc :=
  fun _ _ => Nat.decLe _ _

/-- A pending order created at time 1 (sample data for witnesses). -/
def orderT1 : Order :=
  { id := "o1", product_name := "rice", product_price := 500, quantity := 1,
    total_amount := 500, delivery_address := "12 Allen Ave",
    customer_phone := "0801", status := OrderStatus.pending, created_at := 1,
    rider_id := none }

/-- A delivered order created at time 2 (sample data for witnesses). -/
def orderT2 : Order :=
  { id := "o2", product_name := "beans", product_price := 300, quantity := 2,
    total_amount := 600, delivery_address := "12 Allen Ave",
    customer_phone := "0801", status := OrderStatus.delivered, created_at := 2,
    rider_id := some "r1" }

/-- C1: every fetched order lands on exactly one side of the partition —
an order whose status is pending, accepted or in_transit is in
`activeOrders` and not in `orderHistory`; an order whose status is
delivered or cancelled is in `orderHistory` and not in `activeOrders`;
the two status tests are total and mutually exclusive over the five
status values. -/
theorem loadOrders_partition_total_exclusive (orders : List Order) (o : Order)
    (h : o ∈ orders) :
    (isActiveStatus o.status = true ∧ isHistoryStatus o.status = false ∧
      o ∈ (partitionOrders orders).1 ∧ o ∉ (partitionOrders orders).2) ∨
    (isActiveStatus o.status = false ∧ isHistoryStatus o.status = true ∧
      o ∈ (partitionOrders orders).2 ∧ o ∉ (partitionOrders orders).1) := by
  have hstat : (isActiveStatus o.status = true ∧ isHistoryStatus o.status = false) ∨
      (isActiveStatus o.status = false ∧ isHistoryStatus o.status = true) := by
    cases o.status <;> simp [isActiveStatus, isHistoryStatus]
  rcases hstat with ⟨ha, hh⟩ | ⟨ha, hh⟩
  · refine Or.inl ⟨ha, hh, ?_, ?_⟩
    · exact List.mem_filter.2 ⟨h, ha⟩
    · intro hmem
      exact absurd (List.mem_filter.1 hmem).2 (by simp [hh])
  · refine Or.inr ⟨ha, hh, ?_, ?_⟩
    · exact List.mem_filter.2 ⟨h, hh⟩
    · intro hmem
      exact absurd (List.mem_filter.1 hmem).2 (by simp [ha])

/-- Witness for C1 at the concrete order `orderT1` inside a two-order
fetch. -/
theorem loadOrders_partition_total_exclusive_witness :
    orderT1 ∈ [orderT2, orderT1] ∧
    ((isActiveStatus orderT1.status = true ∧ isHistoryStatus orderT1.status = false ∧
      orderT1 ∈ (partitionOrders [orderT2, orderT1]).1 ∧
      orderT1 ∉ (partitionOrders [orderT2, orderT1]).2) ∨
     (isActiveStatus orderT1.status = false ∧ isHistoryStatus orderT1.status = true ∧
      orderT1 ∈ (partitionOrders [orderT2, orderT1]).2 ∧
      orderT1 ∉ (partitionOrders [orderT2, orderT1]).1)) :=
  ⟨by decide,
   loadOrders_partition_total_exclusive [orderT2, orderT1] orderT1 (by decide)⟩

/-- C2: the two partitioned lists together are a permutation of the fetched
list — nothing duplicated, nothing dropped — and a fetch that returns no
orders yields two empty lists with no toast and no navigation. -/
theorem loadOrders_union_complete (s : Session) (orders : List Order)
    (st : DashState) :
    ((partitionOrders orders).1 ++ (partitionOrders orders).2).Perm orders ∧
    loadOrders (some s) (Except.ok []) st =
      { state := { activeOrders := [], orderHistory := [], loading := false },
        toasts := [], fetched := true, nav := none } := by
  constructor
  · have hneg : (orders.filter fun o => isHistoryStatus o.status) =
        orders.filter fun o => !(isActiveStatus o.status) := by
      refine List.filter_congr ?_
      intro o _
      cases o.status <;> rfl
    have := List.filter_append_perm (fun o => isActiveStatus o.status) orders
    simpa [partitionOrders, hneg] using this
  · rfl

/-- C4: when the fetch fails, the previously stored lists survive
unchanged, exactly one error toast is raised, and no navigation happens;
`loadOrders` is a total function, so the thrown error never escapes the
operation. -/
theorem loadOrders_failure_keeps_state (s : Session) (e : String)
    (st : DashState) :
    (loadOrders (some s) (Except.error e) st).state.activeOrders = st.activeOrders ∧
    (loadOrders (some s) (Except.error e) st).state.orderHistory = st.orderHistory ∧
    (loadOrders (some s) (Except.error e) st).toasts =
      [Toast.error "Failed to load orders"] ∧
    (loadOrders (some s) (Except.error e) st).nav = none :=
  ⟨rfl, rfl, rfl, rfl⟩

/-- C5: when the fetched list is sorted newest-first (the fetch orders by
`created_at` descending), both partitioned lists are sorted newest-first
as well, since filtering preserves relative order. -/
theorem loadOrders_sorted (s : Session) (orders : List Order) (st : DashState)
    (h : List.Sorted createdDesc orders) :
    List.Sorted createdDesc
      (loadOrders (some s) (Except.ok orders) st).state.activeOrders ∧
    List.Sorted createdDesc
      (loadOrders (some s) (Except.ok orders) st).state.orderHistory :=
  ⟨List.Pairwise.filter _ h, List.Pairwise.filter _ h⟩

/-- Witness for C5: the spec scenario — a pending order created at time 1
and a delivered order created at time 2, fetched newest-first — gives
sorted partitioned lists (and indeed active = [orderT1],
history = [orderT2]). -/
theorem loadOrders_sorted_witness :
    List.Sorted createdDesc [orderT2, orderT1] ∧
    (List.Sorted createdDesc
      (loadOrders (some { userId := "u" }) (Except.ok [orderT2, orderT1])
        initialDashState).state.activeOrders ∧
     List.Sorted createdDesc
      (loadOrders (some { userId := "u" }) (Except.ok [orderT2, orderT1])
        initialDashState).state.orderHistory) ∧
    (loadOrders (some { userId := "u" }) (Except.ok [orderT2, orderT1])
      initialDashState).state.activeOrders = [orderT1] ∧
    (loadOrders (some { userId := "u" }) (Except.ok [orderT2, orderT1])
      initialDashState).state.orderHistory = [orderT2] :=
  ⟨by decide,
   loadOrders_sorted { userId := "u" } [orderT2, orderT1] initialDashState (by decide),
   by decide, by decide⟩

/-- C6: with the same session and the same fetched list, running
`loadOrders` a second time starting from the state the first run
produced gives exactly the outcome of the first run — the operation is
idempotent. -/
theorem loadOrders_idempotent (s : Session) (orders : List Order)
    (st : DashState) :
    loadOrders (some s) (Except.ok orders)
        (loadOrders (some s) (Except.ok orders) st).state =
      loadOrders (some s) (Except.ok orders) st :=
  rfl

/-- C3 counterexample: an INSERT change on `public.orders` does NOT trigger
a reload — the channel is registered with `event: 'UPDATE'` only, so the
claim that every kind of externally signaled change re-fetches is false. -/
theorem ordersInsertChange_no_reload :
    ¬ ordersChangeTriggersReload
        { event := "INSERT", schema := "public", table := "orders" } = true := by
  decide

/-- C3 amended: the component re-fetches exactly on UPDATE events on
`public.orders` — INSERT and DELETE changes never reach the handler —
and whenever the handler does fire it performs a full `loadOrders`
reload, never a targeted patch, for every payload. -/
theorem ordersChange_reload_iff (c : PgChange) :
    (ordersChangeTriggersReload c = true ↔
      c.event = "UPDATE" ∧ c.schema = "public" ∧ c.table = "orders") ∧
    onOrdersChange c = RefreshAction.fullReload := by
  obtain ⟨ev, sch, tb⟩ := c
  refine ⟨?_, rfl⟩
  simp only [ordersChangeTriggersReload, filterMatches, customerOrdersFilter,
    Bool.and_eq_true, Bool.or_eq_true, beq_iff_eq]
  constructor
  · rintro ⟨⟨hev | hev, hsch⟩, htb⟩
    · exact absurd hev (by decide)
    · exact ⟨hev.symm, hsch.symm, htb.symm⟩
  · rintro ⟨hev, hsch, htb⟩
    exact ⟨⟨Or.inr hev.symm, hsch.symm⟩, htb.symm⟩

/-- Witness for C3's amended theorem: an UPDATE change on `public.orders`
does trigger the reload. -/
theorem ordersChange_reload_iff_witness :
    ordersChangeTriggersReload
      { event := "UPDATE", schema := "public", table := "orders" } = true :=
  (ordersChange_reload_iff
      { event := "UPDATE", schema := "public", table := "orders" }).1.mpr
    ⟨rfl, rfl, rfl⟩

/-- C7: the first load is triggered exactly when a session exists and the
looked-up role is "customer"; with no session the component silently
redirects to sign-in (no toast); with a session but any other role
lookup result it raises the access-denied toast, redirects home, and
never calls `loadOrders`. -/
theorem checkCustomer_gating (session : Option Session)
    (roleData : Option String) :
    ((checkCustomerAndLoadOrders session roleData).loadTriggered = true ↔
      session.isSome = true ∧ roleData = some "customer") ∧
    (session = none →
      checkCustomerAndLoadOrders session roleData =
        { toasts := [], nav := some Nav.toAuth, loadTriggered := false }) ∧
    (∀ s, session = some s → roleData ≠ some "customer" →
      checkCustomerAndLoadOrders session roleData =
        { toasts := [Toast.error "Access denied. Customer account required."],
          nav := some Nav.toHome, loadTriggered := false }) ∧
    (∀ s, session = some s → roleData = some "customer" →
      checkCustomerAndLoadOrders session roleData =
        { toasts := [], nav := none, loadTriggered := true }) := by
  cases session with
  | none => simp [checkCustomerAndLoadOrders]
  | some s =>
    by_cases h : roleData = some "customer" <;>
      simp [checkCustomerAndLoadOrders, h]

/-- Witness for C7: a sessioned user whose looked-up role is "customer"
proceeds straight to the first load, with no toast and no redirect. -/
theorem checkCustomer_gating_witness :
    checkCustomerAndLoadOrders (some { userId := "u" }) (some "customer") =
      { toasts := [], nav := none, loadTriggered := true } :=
  (checkCustomer_gating (some { userId := "u" }) (some "customer")).2.2.2
    { userId := "u" } rfl rfl

/-- C9: calling `loadOrders` with no session returns early — the state is
untouched apart from the `finally` clearing of the loading flag, no
fetch is issued, no toast is raised and no navigation happens —
whereas `checkCustomerAndLoadOrders` redirects to sign-in in the same
situation. -/
theorem loadOrders_no_session_silent (fetch : Except String (List Order))
    (st : DashState) (roleData : Option String) :
    loadOrders none fetch st =
      { state := { st with loading := false }, toasts := [], fetched := false,
        nav := none } ∧
    (checkCustomerAndLoadOrders none roleData).nav = some Nav.toAuth :=
  ⟨rfl, rfl⟩

/-- C10: the product fetch of the vendor dashboard carries no equality
filter at all — in particular none on `vendor_id` — orders by
`created_at` descending, and `loadProducts` stores exactly the list the
backend returned, with no client-side restriction. -/
theorem loadProducts_unscoped (data : List Product) (st : VendorState) :
    loadProductsQuery.eqFilters = [] ∧
    loadProductsQuery.table = "products" ∧
    loadProductsQuery.orderBy = "created_at" ∧
    loadProductsQuery.ascending = false ∧
    (loadProducts (Except.ok data) st).1.products = data ∧
    (loadProducts (Except.ok data) st).2 = [] :=
  ⟨rfl, rfl, rfl, rfl, rfl, rfl⟩

/-- On every non-success path of `handleSubmit` (validation failure or any
thrown error) the form, the edited product and the dialog are kept; on
the success path the dialog is closed and the form reset. -/
lemma handleSubmit_form_retention (env2 : SubmitEnv) (st : VendorState) :
    ((handleSubmit env2 st).reload = false →
      (handleSubmit env2 st).state.formData = st.formData ∧
      (handleSubmit env2 st).state.editingProduct = st.editingProduct ∧
      (handleSubmit env2 st).state.isDialogOpen = st.isDialogOpen) ∧
    ((handleSubmit env2 st).reload = true →
      (handleSubmit env2 st).state.formData = emptyForm ∧
      (handleSubmit env2 st).state.editingProduct = none ∧
      (handleSubmit env2 st).state.isDialogOpen = false) := by
  obtain ⟨va, se, ur, mr⟩ := env2
  cases va <;> cases se <;> cases hif : st.imageFile <;> cases ur <;> cases mr <;>
    simp [handleSubmit, imageStep, resetForm, hif, Except.map]

/-- C8: when the insert/update issued by `handleSubmit` fails, the error is
caught and surfaced as a toast (the thrown message, or the generic
fallback when it is empty), nothing is reloaded, the form and dialog
survive for retry (and, generally, the form is only reset and the
dialog only closed on success); a failing `handleDelete` likewise only
toasts and changes nothing. Both handlers are total functions, so no
error escapes. -/
theorem vendor_mutation_failure_handling (env : SubmitEnv) (st : VendorState)
    (v : ValidatedProductData) (s : Session) (u : Option String) (e : String)
    (hv : env.validation = Except.ok v) (hs : env.session = some s)
    (hi : imageStep env st = Except.ok u)
    (hm : env.mutationResult = Except.error e) :
    (handleSubmit env st).toasts =
      [Toast.error (errMsgOr e ("Failed to " ++ (match st.editingProduct with
        | some _ => "update"
        | none => "add") ++ " product"))] ∧
    (handleSubmit env st).reload = false ∧
    (handleSubmit env st).state.formData = st.formData ∧
    (handleSubmit env st).state.editingProduct = st.editingProduct ∧
    (handleSubmit env st).state.isDialogOpen = st.isDialogOpen ∧
    (∀ env2 : SubmitEnv,
      ((handleSubmit env2 st).reload = false →
        (handleSubmit env2 st).state.formData = st.formData ∧
        (handleSubmit env2 st).state.editingProduct = st.editingProduct ∧
        (handleSubmit env2 st).state.isDialogOpen = st.isDialogOpen) ∧
      ((handleSubmit env2 st).reload = true →
        (handleSubmit env2 st).state.formData = emptyForm ∧
        (handleSubmit env2 st).state.editingProduct = none ∧
        (handleSubmit env2 st).state.isDialogOpen = false)) ∧
    (∀ e2 : String, handleDelete (Except.error e2) st =
      { state := st, toasts := [Toast.error "Failed to delete product"],
        reload := false }) := by
  have hfail : handleSubmit env st =
      { state := { st with uploading := false },
        toasts := [Toast.error (errMsgOr e ("Failed to " ++
          (match st.editingProduct with
            | some _ => "update"
            | none => "add") ++ " product"))],
        reload := false } := by
    obtain ⟨va, se, ur, mr⟩ := env
    simp only at hv hs hm
    subst hv hs hm
    simp [handleSubmit, hi]
  refine ⟨?_, ?_, ?_, ?_, ?_, ?_, ?_⟩
  · rw [hfail]
  · rw [hfail]
  · rw [hfail]
  · rw [hfail]
  · rw [hfail]
  · intro env2
    exact handleSubmit_form_retention env2 st
  · intro e2
    rfl

/-- A sample product for the vendor witnesses. -/
def sampleProduct : Product :=
  { id := "p1", name := "Yam", description := none, price := 10,
    image_url := none, stock := 5, category := none, created_at := 1 }

/-- A filled-in form for the vendor witnesses. -/
def sampleForm : FormData :=
  { name := "Yam", description := "", price := "10", stock := "5",
    category := "" }

/-- A vendor state with an open dialog and a pending create (no image, not
editing). -/
def sampleVendorState : VendorState :=
  { products := [sampleProduct], loading := false, isDialogOpen := true,
    imageFile := none, imagePreview := "", uploading := false,
    editingProduct := none, formData := sampleForm }

/-- A submit environment whose validation and session succeed but whose
database insert fails. -/
def sampleFailEnv : SubmitEnv :=
  { validation := Except.ok
      { name := "Yam", description := none, price := 10, stock := 5,
        category := none },
    session := some { userId := "v1" },
    uploadResult := Except.ok "url",
    mutationResult := Except.error "db down" }

/-- Witness for C8: the concrete failing insert raises exactly the thrown
message as a toast, triggers no reload, and keeps the form and open
dialog. -/
theorem vendor_mutation_failure_handling_witness :
    (handleSubmit sampleFailEnv sampleVendorState).toasts =
      [Toast.error (errMsgOr "db down" ("Failed to " ++
        (match sampleVendorState.editingProduct with
          | some _ => "update"
          | none => "add") ++ " product"))] ∧
    (handleSubmit sampleFailEnv sampleVendorState).reload = false ∧
    (handleSubmit sampleFailEnv sampleVendorState).state.formData =
      sampleVendorState.formData ∧
    (handleSubmit sampleFailEnv sampleVendorState).state.isDialogOpen =
      sampleVendorState.isDialogOpen := by
  have h := vendor_mutation_failure_handling sampleFailEnv sampleVendorState
    { name := "Yam", description := none, price := 10, stock := 5,
      category := none }
    { userId := "v1" } none "db down" rfl rfl rfl rfl
  exact ⟨h.1, h.2.1, h.2.2.1, h.2.2.2.2.1⟩
